import Mathlib

/-!
Verification of the resumable-upload proxy session
(swift_upload_runner/upload.py, class ResumableFileUploadProxy).

The Python source is shallowly embedded below: every method that the
claims touch becomes a Lean function over an explicit session state.
Network interactions are parameterised by the statuses and texts the
backend would return; Python exceptions are modelled by the Err type,
and a raising method returns the session as mutated up to the raise
together with the error, mirroring the fact that a Python raise does
not roll back attribute mutations.
-/

/-- HTTP success responses returned by the session methods. -/
inductive Resp
  | ok200
  | created201
deriving DecidableEq

/-- Exceptions the session methods can raise. notFound404, timeout408 and
badRequest400 model aiohttp.web.HTTPNotFound, HTTPRequestTimeout and
HTTPBadRequest; keyError, valueError and typeError model the Python
exceptions of the same names. -/
inductive Err
  | notFound404
  | timeout408
  | badRequest400
  | keyError (key : String)
  | valueError
  | typeError
deriving DecidableEq

/-- A value held in the request query dict: the query carries both
numeric and string parameters. -/
inductive QVal
  | int (n : Int)
  | str (s : String)
deriving DecidableEq

/-- The request query dict passed to a_add_chunk. -/
abbrev Query := List (String × QVal)

/-- Python dict subscription for a numeric parameter: a missing key raises
KeyError naming the key. Numeric parameters are used directly in
arithmetic by the source, so a string value where an int is consumed
would raise TypeError. -/
def qget (query : Query) (key : String) : Except Err Int :=
  match query.lookup key with
  | some (QVal.int n) => .ok n
  | some (QVal.str _) => .error .typeError
  | none => .error (.keyError key)

/-- The per-upload session state: the attributes set by
ResumableFileUploadProxy.__init__ (upload.py lines 20-72) that the
claims are about. done_chunks models the Python set of completed chunk
numbers (insertion is idempotent, so the list stays duplicate-free). -/
structure UploadSession where
  chunk_size : Int
  total_size : Int
  total_chunks : Int
  content_type : String
  ident : String
  filename : String
  path : String
  container : String
  done_chunks : List Int
  total_uploaded : Int
  segmented : Bool
deriving DecidableEq

/-- Models ResumableFileUploadProxy.__init__ (lines 20-72), taking the
already-parsed query values; query-string parsing is an external
collaborator per the spec. done_chunks starts empty, total_uploaded at 0,
and segmented is computed once from total_size exactly as at lines 69-72:
set to False, then flipped to True when total_size >= 5368709120. -/
def proxy_init (chunk_size total_size total_chunks : Int)
    (content_type ident filename path container : String) : UploadSession :=
  { chunk_size := chunk_size
    total_size := total_size
    total_chunks := total_chunks
    content_type := content_type
    ident := ident
    filename := filename
    path := path
    container := container
    done_chunks := []
    total_uploaded := 0
    segmented := if total_size ≥ 5368709120 then true else false }

/-- The fragment of the Python format-specification mini-language that
integer formatting uses here: an optional "0" fill flag, an optional
decimal width, and the presentation type "d"; any characters left after
the type make the specifier invalid and raise ValueError, which is what
happens to a specifier that ends in a newline and indentation. -/
def pyIntFormat (spec : String) (n : Int) : Except Err String :=
  let cs := spec.toList
  let zeroFill : Bool := match cs with
    | '0' :: _ => true
    | _ => false
  let cs2 := if zeroFill then cs.tail else cs
  let widthDigits := cs2.takeWhile Char.isDigit
  let rest := cs2.dropWhile Char.isDigit
  match rest with
  | ['d'] =>
    let width := widthDigits.foldl (fun a c => a * 10 + (c.toNat - 48)) 0
    let mag := toString n.natAbs
    let sign := if n < 0 then "-" else ""
    let pad := width - (sign.length + mag.length)
    if zeroFill then
      .ok (sign ++ String.mk (List.replicate pad '0') ++ mag)
    else
      .ok (String.mk (List.replicate pad ' ') ++ sign ++ mag)
  | _ => .error .valueError

/-- The format specifier produced by the line-wrapped f-string at upload.py
lines 151-153: the replacement field closes only on the following source
line, so the specifier is "08d" followed by the newline and the twenty
spaces of indentation that precede the closing brace. -/
def segment_index_format_spec : String := "08d\n                    "

/-- Models the object_name argument built at lines 151-153 for the segment
PUT of a chunk: the relative path, a slash, and the chunk number rendered
through the f-string replacement field whose specifier is
segment_index_format_spec. -/
def segment_object_name (path : String) (chunk_number : Int) : Except Err String :=
  match pyIntFormat segment_index_format_spec chunk_number with
  | .error e => .error e
  | .ok idx => .ok (path ++ "/" ++ idx)

/-- Models a_add_manifest (lines 115-133): PUT an empty object carrying the
X-Object-Manifest header naming the segment prefix; any backend status
other than 201 raises HTTPBadRequest. -/
def a_add_manifest (self : UploadSession) (manifest_put_status : Nat) : Except Err Unit :=
  let _manifest := self.container ++ "_segments/" ++ self.path ++ "/"
  if manifest_put_status ≠ 201 then .error .badRequest400 else .ok ()

/-- The backend statuses consulted by a single a_add_chunk call: the status
of the segment PUT (line 147) and of the manifest PUT (line 120). -/
structure Backend where
  segment_put_status : Nat
  manifest_put_status : Nat

/-- The synchronous outcome of one a_add_chunk call: an HTTP response, or
(monolithic mode) the chunk handed to the reorder queue at lines 170-175,
where the 201 response is produced only after the consumer marks the chunk
done (lines 187-188); that cross-request behavior is modelled by the
mono machine below. -/
inductive AddChunkResult
  | response (r : Resp)
  | enqueued (chunk_number : Int)
deriving DecidableEq

/-- Models a_add_chunk (lines 135-188). Execution order follows the
source: line 141 subscripts the query with the key "resumableChunkNUmber"
(capital U, unlike lines 152 and 167); line 143 the idempotency check;
line 146 the mode branch. In the segmented branch the arguments of
client.put are evaluated in order: the URL, whose object name is the
f-string of lines 151-153 (subscripting the correctly spelled key, then
formatting), then the headers, whose Content-Length subscripts
resumableCurrentChunkSize (line 158); then the PUT status is examined
(line 162), total_uploaded is incremented (line 164, a second
subscription of the same key yielding the same value), the manifest is
written when total_uploaded equals total_size (lines 165-166), and the
chunk number is added to done_chunks (line 167). A raise returns the
session as mutated so far together with the error. -/
def a_add_chunk (self : UploadSession) (query : Query) (backend : Backend) :
    UploadSession × Except Err AddChunkResult :=
  match qget query "resumableChunkNUmber" with
  | .error e => (self, .error e)
  | .ok chunk_number =>
    if chunk_number ∈ self.done_chunks then (self, .ok (.response .ok200))
    else if self.segmented then
      match qget query "resumableChunkNumber" with
      | .error e => (self, .error e)
      | .ok n =>
        match segment_object_name self.path n with
        | .error e => (self, .error e)
        | .ok _object_name =>
          match qget query "resumableCurrentChunkSize" with
          | .error e => (self, .error e)
          | .ok current_chunk_size =>
            if backend.segment_put_status = 408 then (self, .error .timeout408)
            else
              let self2 := { self with
                total_uploaded := self.total_uploaded + current_chunk_size }
              match (if self2.total_uploaded = self2.total_size
                     then a_add_manifest self2 backend.manifest_put_status
                     else Except.ok ()) with
              | .error e => (self2, .error e)
              | .ok _ =>
                match qget query "resumableChunkNumber" with
                | .error e => (self2, .error e)
                | .ok n2 =>
                  ({ self2 with done_chunks := self2.done_chunks.insert n2 },
                   .ok (.response .created201))
    else
      (self, .ok (.enqueued chunk_number))

/-- Models a_check_segment (lines 93-113): HEAD the destination URL first;
a 200 means the whole object exists and the check succeeds regardless of
the chunk number; any other status falls through to the done_chunks
membership test; otherwise HTTPNotFound is raised. The HEAD status is
supplied by the backend parameter head_status. -/
def a_check_segment (self : UploadSession) (head_status : Nat) (chunk_number : Int) :
    Except Err Resp :=
  if head_status = 200 then .ok .ok200
  else if chunk_number ∈ self.done_chunks then .ok .ok200
  else .error .notFound404

/-- Models the value of the expression at line 87, which reads
"await request.text": text is a coroutine method of the response object
and the bound method object itself is awaited without being called, so
Python raises TypeError before any listing text is produced. The
parameter is the listing text the backend would have returned. -/
def await_request_text (_listing_text : String) : Except Err String :=
  .error .typeError

/-- Models the Python substring test of line 89, "path in i". -/
def str_contains (hay needle : String) : Bool :=
  needle.isEmpty || (hay.splitOn needle).length != 1

/-- Models Python int() applied to a string as at line 91: surrounding
whitespace is ignored, an optional sign followed by decimal digits is
accepted, anything else raises ValueError. -/
def pyInt (s : String) : Except Err Int :=
  match s.trim.toInt? with
  | some n => .ok n
  | none => .error .valueError

/-- Models the loop at lines 90-91: each kept listing entry contributes
int of the trailing slash-separated token of its name to done_chunks; a
non-numeric trailing token raises ValueError mid-loop, keeping the chunks
added so far. -/
def add_segment_numbers (done : List Int) : List String → List Int × Except Err Unit
  | [] => (done, .ok ())
  | seg :: rest =>
    match pyInt ((seg.splitOn "/").getLastD "") with
    | .error e => (done, .error e)
    | .ok n => add_segment_numbers (done.insert n) rest

/-- Models a_sync_segments (lines 74-91): GET the segment-container
listing, strip it, split it on newlines, keep the entries containing the
relative path, and add the integer value of each trailing token to
done_chunks. The first step, line 87, already raises TypeError (see
await_request_text), so the remaining steps are dead code and the session
is returned unchanged together with the error. -/
def a_sync_segments (self : UploadSession) (listing_text : String) :
    UploadSession × Except Err Unit :=
  match await_request_text listing_text with
  | .error e => (self, .error e)
  | .ok text =>
    let segments := (text.trim.splitOn "\n").filter (fun i => str_contains i self.path)
    let r := add_segment_numbers self.done_chunks segments
    ({ self with done_chunks := r.1 }, r.2)

/-- The state of the monolithic (non-segmented) pipeline of one session:
the asyncio.PriorityQueue of lines 28-32 and 170-175 (kept sorted by
chunk number, so the head is the entry q.get returns), the shared
done_chunks and total_uploaded, the bytes yielded so far into the body of
the single outbound PUT by generate_from_queue (lines 190-210), the
number of times lines 177-185 assigned the outbound PUT coroutine, and
whether the generator broke out of its loop (line 210). -/
structure MonoState where
  queue : List (Int × Int × List Nat)
  done_chunks : List Int
  total_uploaded : Int
  body : List Nat
  put_created : Nat
  finished : Bool
deriving DecidableEq

/-- The initial monolithic pipeline state of a fresh session. -/
def mono_init : MonoState :=
  { queue := [], done_chunks := [], total_uploaded := 0, body := [],
    put_created := 0, finished := false }

/-- Priority-queue insertion keyed on the chunk number: the list is kept
sorted ascending, so its head is the smallest entry currently present,
which is what asyncio.PriorityQueue.get returns. -/
def pq_put (q : List (Int × Int × List Nat)) (e : Int × Int × List Nat) :
    List (Int × Int × List Nat) :=
  match q with
  | [] => [e]
  | x :: rest => if e.1 < x.1 then e :: x :: rest else x :: pq_put rest e

/-- One scheduling event of the monolithic pipeline: arrive models one
a_add_chunk call taking the monolithic branch (lines 141-185) through its
queue put, carrying the chunk number, its resumableCurrentChunkSize and
its payload bytes; consume models one iteration of the
generate_from_queue loop (lines 192-210). -/
inductive MonoEvent
  | arrive (chunk_number : Int) (current_chunk_size : Int) (payload : List Nat)
  | consume

/-- One step of the monolithic pipeline under an explicit interleaving.
none marks an event that is not enabled: an arrival suspends in q.put
while the queue holds maxsize entries (backpressure, lines 28-32), and
the consumer suspends in q.get while the queue is empty. An arrival for a
chunk already in done_chunks is the no-op 200 of line 143. On arrival
the queue put of line 170 precedes the check of line 177, which assigns
the outbound PUT coroutine whenever done_chunks is still empty. A
consume iteration pops the smallest queued entry, yields its payload
into the body, adds its size to total_uploaded and its number to
done_chunks (lines 193-203), and ends the body once done_chunks has
total_chunks elements (lines 205-210). -/
def mono_step (maxsize total_chunks : Nat) (s : MonoState) (e : MonoEvent) :
    Option MonoState :=
  if s.finished then none
  else match e with
  | .arrive n size payload =>
    if n ∈ s.done_chunks then some s
    else if maxsize ≤ s.queue.length then none
    else some { s with
      queue := pq_put s.queue (n, size, payload)
      put_created := if s.done_chunks.isEmpty then s.put_created + 1 else s.put_created }
  | .consume =>
    match s.queue with
    | [] => none
    | (n, size, payload) :: rest =>
      let done := s.done_chunks.insert n
      some { s with
        queue := rest
        body := s.body ++ payload
        total_uploaded := s.total_uploaded + size
        done_chunks := done
        finished := done.length = total_chunks }

/-- Runs the monolithic pipeline over a list of scheduling events,
failing if an event that is not enabled is scheduled. -/
def mono_run (maxsize total_chunks : Nat) (s : MonoState) :
    List MonoEvent → Option MonoState
  | [] => some s
  | e :: rest =>
    match mono_step maxsize total_chunks s e with
    | none => none
    | some s2 => mono_run maxsize total_chunks s2 rest

/-- Modelled from the spec: the chunk-upload query parameters of section 6
as supplied by the HTTP handler, which is not under src; the handler
passes the documented resumable parameter names, with the numeric ones
as integers. The chunk number and its current size are the arguments. -/
def documented_query (n size : Int) : Query :=
  [("resumableChunkSize", QVal.int 1048576),
   ("resumableTotalSize", QVal.int 10485760),
   ("resumableTotalChunks", QVal.int 10),
   ("resumableType", QVal.str "text/plain"),
   ("resumableIdentifier", QVal.str "ident0"),
   ("resumableFilename", QVal.str "a.bin"),
   ("resumableRelativePath", QVal.str "files/a.bin"),
   ("resumableChunkNumber", QVal.int n),
   ("resumableCurrentChunkSize", QVal.int size)]

/-- A query that additionally carries the misspelled key of line 141, so
that the subscription there succeeds and execution reaches the mode
branch. -/
def both_keys_query (n size : Int) : Query :=
  ("resumableChunkNUmber", QVal.int n) :: documented_query n size

/-- A fresh monolithic session for a 10 MiB object in 1 MiB chunks. -/
def sample_session : UploadSession :=
  proxy_init 1048576 10485760 10 "text/plain" "ident0" "a.bin" "files/a.bin" "cont"

/-- The sample session after chunk 3 has completed. -/
def resend_session : UploadSession :=
  { sample_session with done_chunks := [3] }

/-- A segmented session (object of exactly 5 GiB) that is one byte short
of completion: the next accepted chunk of size 1 reaches the manifest
write. -/
def brink_session : UploadSession :=
  { proxy_init 1048576 5368709120 5120 "application/octet" "ident1" "b.bin"
      "files/b.bin" "cont" with total_uploaded := 5368709119 }

/-- A backend whose segment and manifest PUTs both answer 201. -/
def ok_backend : Backend :=
  { segment_put_status := 201, manifest_put_status := 201 }

/-- A backend whose segment PUT times out with 408. -/
def timeout_backend : Backend :=
  { segment_put_status := 408, manifest_put_status := 201 }

/-- A backend that stores segments but rejects the manifest PUT with 500. -/
def manifest_fail_backend : Backend :=
  { segment_put_status := 201, manifest_put_status := 500 }

/-- C1 (code bug): the claim says that in monolithic mode every arrival
permutation yields exactly one backend PUT whose body is the ascending
concatenation of the chunks. The code fails it: generate_from_queue pops
the smallest chunk currently queued, not the next expected index. With
the default queue capacity 1 and totalChunks = 2, arrival order chunk 1
then chunk 0 runs to completion issuing exactly one PUT, but its body
streams the payload of chunk 1 (here [11]) before that of chunk 0 (here
[22]), not the ascending concatenation [22] ++ [11]. -/
theorem c1_monolithic_order_violated :
    (mono_run 1 2 mono_init
        [MonoEvent.arrive 1 1 [11], MonoEvent.consume,
         MonoEvent.arrive 0 1 [22], MonoEvent.consume]).map
      (fun s => (s.body, s.put_created, s.finished))
      = some ([11, 22], 1, true)
    ∧ ([11, 22] : List Nat) ≠ [22] ++ [11] := by
  exact ⟨by decide, by decide⟩

/-- C2 (code bug): the claim says every a_add_chunk call with the
documented resumable parameters ends in 200, 201, a raised 408 or a
raised 400. The code instead subscripts the query at line 141 with the
misspelled key "resumableChunkNUmber", so every such call raises
KeyError, whatever the session and backend, before any of the four
documented outcomes can be produced. -/
theorem c2_upload_chunk_keyerror (self : UploadSession) (backend : Backend)
    (n size : Int) :
    a_add_chunk self (documented_query n size) backend
      = (self, .error (.keyError "resumableChunkNUmber")) := rfl

/-- C3 (confirmed): a_check_segment performs exactly the three tests in
order: a HEAD status of 200 yields 200 regardless of the chunk number;
otherwise membership of the chunk number in done_chunks yields 200;
otherwise HTTPNotFound is raised. -/
theorem c3_check_segment_three_tests (self : UploadSession) (head_status : Nat)
    (n : Int) :
    (head_status = 200 → a_check_segment self head_status n = .ok .ok200)
    ∧ (head_status ≠ 200 → n ∈ self.done_chunks →
        a_check_segment self head_status n = .ok .ok200)
    ∧ (head_status ≠ 200 → n ∉ self.done_chunks →
        a_check_segment self head_status n = .error .notFound404) := by
  refine ⟨fun h => by simp [a_check_segment, h],
          fun h hm => by simp [a_check_segment, h, hm],
          fun h hm => by simp [a_check_segment, h, hm]⟩

/-- Witness for C3, on a session that has completed chunk 3 only: a HEAD
of 200 answers 200 for the never-uploaded chunk 7, a HEAD of 404 answers
200 for the completed chunk 3, and a HEAD of 404 answers HTTPNotFound for
chunk 7. -/
theorem c3_check_segment_three_tests_witness :
    a_check_segment resend_session 200 7 = .ok .ok200
    ∧ a_check_segment resend_session 404 3 = .ok .ok200
    ∧ a_check_segment resend_session 404 7 = .error .notFound404 := by
  refine ⟨(c3_check_segment_three_tests resend_session 200 7).1 rfl,
          (c3_check_segment_three_tests resend_session 404 3).2.1
            (by decide) (by decide),
          (c3_check_segment_three_tests resend_session 404 7).2.2
            (by decide) (by decide)⟩

/-- C4 (code bug): the claim says resending a chunk already in
done_chunks is a no-op success. The code raises KeyError at line 141
(misspelled key "resumableChunkNUmber") before reaching the idempotency
check of line 143, so a resend of the completed chunk 3 with the
documented query parameters errors instead of answering 200; the session
is left unchanged only because the raise precedes every mutation. -/
theorem c4_resend_raises_keyerror :
    a_add_chunk resend_session (documented_query 3 1048576) ok_backend
      = (resend_session, .error (.keyError "resumableChunkNUmber")) := rfl

/-- C5 (confirmed): proxy_init computes segmented as the comparison
total_size >= 5368709120, with the documented boundary behavior at
5368709119 and 5368709120, and no session operation changes segmented
afterwards: a_add_chunk and a_sync_segments return a session with the
same segmented flag in every case, also when they raise, and
a_check_segment and a_add_manifest do not touch the session at all. -/
theorem c5_segmented_once_and_fixed :
    (∀ cs ts tc ct idf fn p c,
        (proxy_init cs ts tc ct idf fn p c).segmented = decide (ts ≥ 5368709120))
    ∧ (proxy_init 1048576 5368709119 5120 "t" "i" "f" "p" "c").segmented = false
    ∧ (proxy_init 1048576 5368709120 5120 "t" "i" "f" "p" "c").segmented = true
    ∧ (∀ self query backend,
        ((a_add_chunk self query backend).1).segmented = self.segmented)
    ∧ (∀ self listing,
        ((a_sync_segments self listing).1).segmented = self.segmented) := by
  refine ⟨?_, by decide, by decide, ?_, fun self listing => rfl⟩
  · intro cs ts tc ct idf fn p c
    by_cases h : ts ≥ 5368709120 <;> simp [proxy_init, h]
  · intro self query backend
    unfold a_add_chunk
    repeat' split
    all_goals try rfl
    all_goals dsimp only
    all_goals repeat' split
    all_goals rfl

/-- C6 (code bug): the claim says a failed manifest write raises a fatal
400 and leaves done_chunks and total_uploaded at their values from before
the chunk request. On a segmented session one byte short of completion,
with the final chunk of size 1 stored (201) and the manifest PUT
rejected (500), the code instead raises ValueError while building the
segment object name (the f-string format specifier of lines 151-153 ends
in a newline plus indentation), so the manifest write and its 400 path
are unreachable; the query here even carries the misspelled key of line
141 so that execution reaches the segmented branch at all. Independently
of this, line 164 increments total_uploaded before the manifest attempt,
so the raise of line 133 would not leave total_uploaded unchanged either. -/
theorem c6_manifest_failure_unreachable :
    a_add_chunk brink_session (both_keys_query 5119 1) manifest_fail_backend
      = (brink_session, .error .valueError)
    ∧ Err.valueError ≠ Err.badRequest400 := ⟨rfl, by decide⟩

/-- C7 (code bug): the claim says a 408 from the backend segment PUT makes
a_add_chunk raise a retryable timeout. The segment PUT is never issued:
building its object name raises ValueError first (invalid format
specifier, lines 151-153), so even with the backend answering 408 the
call raises ValueError, not the claimed HTTPRequestTimeout. -/
theorem c7_timeout_path_unreachable :
    a_add_chunk brink_session (both_keys_query 2 1) timeout_backend
      = (brink_session, .error .valueError)
    ∧ Err.valueError ≠ Err.timeout408 := ⟨rfl, by decide⟩

/-- C8 (code bug): the claim says the segment object name is the relative
path, a slash, and the chunk number as a fixed-width zero-padded decimal.
The name construction instead raises ValueError for every chunk number,
because the f-string format specifier carries a trailing newline and
indentation; the one-line specifier "08d" would have produced the claimed
zero-padded name. -/
theorem c8_segment_name_raises :
    segment_object_name "files/a.bin" 3 = .error .valueError
    ∧ pyIntFormat "08d" 3 = .ok "00000003" := ⟨rfl, rfl⟩

/-- C9 (code bug): the claim says a_sync_segments parses the
segment-container listing and seeds done_chunks with the recovered chunk
indices. Line 87 awaits the bound method object request.text instead of
calling it, raising TypeError before the listing is parsed, so for every
session and every listing text the session is returned unchanged with a
TypeError and done_chunks is never seeded. -/
theorem c9_sync_segments_typeerror (self : UploadSession) (listing_text : String) :
    a_sync_segments self listing_text = (self, .error .typeError) := rfl

/-- C10 (confirmed): in a_check_segment every HEAD status other than 200,
including backend errors such as 401, 403 or 500, behaves exactly like
object absence (HEAD 404): the check falls through to the done_chunks
membership test, and the outcome is always either a 200 or a raised
HTTPNotFound, never a surfaced backend error. -/
theorem c10_check_segment_nonok_like_absence (self : UploadSession)
    (head_status : Nat) (h : head_status ≠ 200) (n : Int) :
    a_check_segment self head_status n = a_check_segment self 404 n
    ∧ (a_check_segment self head_status n = .ok .ok200
       ∨ a_check_segment self head_status n = .error .notFound404) := by
  constructor
  · simp [a_check_segment, h]
  · by_cases hm : n ∈ self.done_chunks <;> simp [a_check_segment, h, hm]

/-- Witness for C10 at HEAD status 500 on the sample session probing
chunk 7: the result agrees with the HEAD-404 result and is the raised
HTTPNotFound, not a surfaced backend error. -/
theorem c10_check_segment_nonok_like_absence_witness :
    a_check_segment sample_session 500 7 = a_check_segment sample_session 404 7
    ∧ (a_check_segment sample_session 500 7 = .ok .ok200
       ∨ a_check_segment sample_session 500 7 = .error .notFound404) :=
  c10_check_segment_nonok_like_absence sample_session 500 (by decide) 7
